import Mathlib

/-!
Verification of the agent-creator pipeline (`src/agent_creator`): the
Acceptance Gate (`qa/qa_vet.py`), the Retry/Adjustment Controller
(`core/retry.py`), top-level input validation (`core/genesis.py`) and model
selection (`core/llm_selector.py`), shallowly embedded in Lean.

Conventions of the embedding:
* Python numbers (`float`) are modelled as exact rationals `ℚ`; the
  thresholds `0.6`, `0.15`, `0.35` of the source are written `6/10`,
  `15/100`, `35/100`.
* Python strings are Lean `String`s; where character-level operations
  matter (`strip`, length bounds in `genesis`) a Python string is a
  `List Char`.
* Fallible code returns `Except`/`Option`; a Python statement that can
  raise is modelled by the corresponding `.error` constructor.
* Calls to the external text-generation service (the "Gateway") are
  modelled by an explicit `Except GatewayError _` argument carrying either
  the parsed payload the `try:` body would have produced or the exception
  it would have raised.
-/

namespace AgentCreator

/-- One element of the `scores` list built by `evaluate_responses`
(`qa/qa_vet.py`, lines 282-287): a dict with keys `question`, `correct`,
`score`, `difficulty`. -/
structure EvalResult where
  question : String
  correct : Bool
  score : ℚ
  difficulty : ℚ
deriving DecidableEq

/-- `calculate_variance` (`qa/qa_vet.py`, lines 291-312): returns `0.0` on an
empty list, otherwise `p * (1 - p)` where `p = sum(binary_outcomes) /
len(binary_outcomes)` (Python `sum` over a list of `bool` counts the `True`
entries). -/
def calculate_variance (binary_outcomes : List Bool) : ℚ :=
  if binary_outcomes.isEmpty then 0
  else
    let p : ℚ := (binary_outcomes.count true : ℚ) / (binary_outcomes.length : ℚ)
    p * (1 - p)

/-- The branch taken by `generate_qa_reason` (`qa/qa_vet.py`, lines 314-341).
The function returns a human-readable string; we embed its control flow as a
classification tag (the string texts carry no further structure the claims
depend on). -/
inductive ReasonClass where
  /-- `avg_score < 0.6`: "Agent scored below competence threshold". -/
  | belowCompetence
  /-- `variance < 0.15` and `variance == 0.0`: "All questions answered identically". -/
  | allIdentical
  /-- `variance < 0.15` and `variance ≠ 0.0`: "Questions too easy or too hard". -/
  | tooEasyOrTooHard
  /-- the trailing `else` branch, commented `# variance > 0.35` in the source:
  "Performance too inconsistent". -/
  | tooInconsistent
  /-- `passed` was true: "Agent passed all quality checks". -/
  | passedChecks
deriving DecidableEq

/-- Control flow of `generate_qa_reason` (`qa/qa_vet.py`, lines 314-341). -/
def generate_qa_reason (passed : Bool) (avg_score : ℚ) (variance : ℚ) : ReasonClass :=
  if !passed then
    if avg_score < 6/10 then .belowCompetence
    else
      if variance < 15/100 then
        if variance = 0 then .allIdentical else .tooEasyOrTooHard
      else .tooInconsistent
  else .passedChecks

/-- The `qa_result` aggregate built by `quality_assurance_test`
(`qa/qa_vet.py`, lines 60-69), restricted to the statistics fields. -/
structure Verdict where
  passed : Bool
  average : ℚ
  variance : ℚ
  reason : ReasonClass
deriving DecidableEq

/-- Errors the Acceptance Gate can fail with.  `zeroDivisionError` is the
Python `ZeroDivisionError` raised by `sum(...) / len(scores)` when `scores`
is empty (`qa/qa_vet.py`, line 51).  `insufficientData` is the error named by
the spec ("fails with `InsufficientData` if the sequence is empty"); it is
included so the spec's claim about it can be stated, and no code path
produces it. -/
inductive QaError where
  | zeroDivisionError
  | insufficientData
deriving DecidableEq

/-- The Acceptance Gate: the statistics/decision part of
`quality_assurance_test` (`qa/qa_vet.py`, lines 48-69) as a function of the
`scores` list.  Mirrors the source's evaluation order: line 48 computes
`correctness_variance` (which tolerates an empty list), then line 51 divides
by `len(scores)`, raising `ZeroDivisionError` on an empty list. -/
def quality_assurance_gate (scores : List EvalResult) : Except QaError Verdict :=
  let correctness_variance := calculate_variance (scores.map EvalResult.correct)
  if scores.length = 0 then .error .zeroDivisionError
  else
    let avg_score := (scores.map EvalResult.score).sum / (scores.length : ℚ)
    let passed := decide ((6/10 : ℚ) ≤ avg_score) &&
                  decide ((15/100 : ℚ) ≤ correctness_variance) &&
                  decide (correctness_variance ≤ (35/100 : ℚ))
    .ok ⟨passed, avg_score, correctness_variance,
         generate_qa_reason passed avg_score correctness_variance⟩

/-- Mean of a list of booleans taken as 0/1, the spec's `pass_rate`; used to
state the claims in the spec's own terms. -/
def mean01 (flags : List Bool) : ℚ :=
  (flags.map (fun b => if b then (1 : ℚ) else 0)).sum / (flags.length : ℚ)

/-- Mean of the `score` fields, the spec's `average_score`. -/
def mean_score (scores : List EvalResult) : ℚ :=
  (scores.map EvalResult.score).sum / (scores.length : ℚ)

theorem sum01_eq_count (l : List Bool) :
    (l.map (fun b => if b then (1 : ℚ) else 0)).sum = (l.count true : ℚ) := by
  induction l with
  | nil => simp
  | cons a l ih =>
    cases a
    · simp [List.count_cons, ih]
    · simp [List.count_cons, ih]
      ring

theorem mean01_eq_count_div (l : List Bool) :
    mean01 l = (l.count true : ℚ) / (l.length : ℚ) := by
  rw [mean01, sum01_eq_count]

/-- C1.  On a non-empty list of evaluation results the gate returns a
verdict whose `average` is the mean of the score fields, whose `variance` is
`pass_rate * (1 - pass_rate)` with `pass_rate` the mean of the correct flags
taken as 0/1, and whose `passed` flag is true exactly when
`average_score ≥ 0.6` and `0.15 ≤ variance ≤ 0.35`. -/
theorem gate_computes_spec_statistics (scores : List EvalResult) (h : scores ≠ []) :
    ∃ v, quality_assurance_gate scores = .ok v ∧
      v.average = mean_score scores ∧
      v.variance = mean01 (scores.map EvalResult.correct) *
        (1 - mean01 (scores.map EvalResult.correct)) ∧
      (v.passed = true ↔
        6/10 ≤ v.average ∧ 15/100 ≤ v.variance ∧ v.variance ≤ 35/100) := by
  have hlen : scores.length ≠ 0 := by
    simpa [List.length_eq_zero] using h
  have hmap : (scores.map EvalResult.correct).isEmpty = false := by
    cases scores with
    | nil => exact absurd rfl h
    | cons a l => rfl
  refine ⟨⟨decide ((6/10 : ℚ) ≤ (scores.map EvalResult.score).sum / (scores.length : ℚ)) &&
      decide ((15/100 : ℚ) ≤ calculate_variance (scores.map EvalResult.correct)) &&
      decide (calculate_variance (scores.map EvalResult.correct) ≤ (35/100 : ℚ)),
      (scores.map EvalResult.score).sum / (scores.length : ℚ),
      calculate_variance (scores.map EvalResult.correct),
      generate_qa_reason
        (decide ((6/10 : ℚ) ≤ (scores.map EvalResult.score).sum / (scores.length : ℚ)) &&
          decide ((15/100 : ℚ) ≤ calculate_variance (scores.map EvalResult.correct)) &&
          decide (calculate_variance (scores.map EvalResult.correct) ≤ (35/100 : ℚ)))
        ((scores.map EvalResult.score).sum / (scores.length : ℚ))
        (calculate_variance (scores.map EvalResult.correct))⟩, ?_, rfl, ?_, ?_⟩
  · unfold quality_assurance_gate
    rw [if_neg hlen]
  · show calculate_variance (scores.map EvalResult.correct) = _
    rw [calculate_variance, hmap, mean01_eq_count_div]
    simp
  · show (decide _ && decide _ && decide _) = true ↔ _
    simp [Bool.and_eq_true, decide_eq_true_eq, and_assoc]

/-- Witness for C1 at the concrete one-element input. -/
theorem gate_computes_spec_statistics_witness :
    ([(⟨"q", true, 1, 1⟩ : EvalResult)] ≠ []) ∧
    (∃ v, quality_assurance_gate [(⟨"q", true, 1, 1⟩ : EvalResult)] = .ok v ∧
      v.average = mean_score [(⟨"q", true, 1, 1⟩ : EvalResult)] ∧
      v.variance = mean01 ([(⟨"q", true, 1, 1⟩ : EvalResult)].map EvalResult.correct) *
        (1 - mean01 ([(⟨"q", true, 1, 1⟩ : EvalResult)].map EvalResult.correct)) ∧
      (v.passed = true ↔
        6/10 ≤ v.average ∧ 15/100 ≤ v.variance ∧ v.variance ≤ 35/100)) :=
  ⟨by decide, gate_computes_spec_statistics _ (by decide)⟩

theorem calculate_variance_nonneg_le_quarter (outcomes : List Bool) :
    0 ≤ calculate_variance outcomes ∧ calculate_variance outcomes ≤ 1/4 := by
  rw [calculate_variance]
  split
  · norm_num
  · rename_i hne
    have hlen : 0 < (outcomes.length : ℚ) := by
      have : outcomes ≠ [] := by
        simpa [List.isEmpty_iff] using hne
      have : 0 < outcomes.length := List.length_pos.mpr this
      exact_mod_cast this
    set p : ℚ := (outcomes.count true : ℚ) / (outcomes.length : ℚ) with hp
    have hp0 : 0 ≤ p := by
      apply div_nonneg _ (le_of_lt hlen)
      positivity
    have hp1 : p ≤ 1 := by
      rw [hp, div_le_one hlen]
      exact_mod_cast List.count_le_length true outcomes
    constructor
    · have : 0 ≤ 1 - p := by linarith
      exact mul_nonneg hp0 this
    · nlinarith [sq_nonneg (p - 1/2)]

/-- C3.  `calculate_variance` always lies in `[0, 1/4]`; hence on every
non-empty score list the gate's verdict has `variance ≤ 0.35` (the upper
bound can never fail), its reason is never the `variance > 0.35`
("too inconsistent") branch of `generate_qa_reason`, and `passed` is
equivalent to `average ≥ 0.6 ∧ 0.15 ≤ variance ∧ variance ≤ 0.25`. -/
theorem variance_bounded_upper_check_unreachable :
    (∀ outcomes : List Bool,
      0 ≤ calculate_variance outcomes ∧ calculate_variance outcomes ≤ 1/4) ∧
    (∀ scores : List EvalResult, scores ≠ [] →
      ∃ v, quality_assurance_gate scores = .ok v ∧
        v.variance ≤ 35/100 ∧
        v.reason ≠ .tooInconsistent ∧
        (v.passed = true ↔
          6/10 ≤ v.average ∧ 15/100 ≤ v.variance ∧ v.variance ≤ 25/100)) := by
  refine ⟨calculate_variance_nonneg_le_quarter, ?_⟩
  intro scores h
  have hlen : scores.length ≠ 0 := by
    simpa [List.length_eq_zero] using h
  have hv := calculate_variance_nonneg_le_quarter (scores.map EvalResult.correct)
  set cv := calculate_variance (scores.map EvalResult.correct) with hcv
  set avg := (scores.map EvalResult.score).sum / (scores.length : ℚ) with havg
  set pd := decide ((6/10 : ℚ) ≤ avg) && decide ((15/100 : ℚ) ≤ cv) &&
    decide (cv ≤ (35/100 : ℚ)) with hpd
  have hgate : quality_assurance_gate scores =
      .ok ⟨pd, avg, cv, generate_qa_reason pd avg cv⟩ := by
    unfold quality_assurance_gate
    rw [if_neg hlen]
  refine ⟨_, hgate, ?_, ?_, ?_⟩
  · show cv ≤ 35/100
    linarith [hv.2]
  · show generate_qa_reason pd avg cv ≠ .tooInconsistent
    rw [generate_qa_reason]
    split
    · split
      · simp
      · split
        · split
          · simp
          · simp
        · rename_i hnotlow
          exfalso
          rename_i hnotpassed havgok
          have h1 : (6/10 : ℚ) ≤ avg := le_of_not_lt havgok
          have h2 : (15/100 : ℚ) ≤ cv := le_of_not_lt hnotlow
          have h3 : cv ≤ (35/100 : ℚ) := by linarith [hv.2]
          have : pd = true := by
            rw [hpd]
            simp [h1, h2, h3]
          simp [this] at hnotpassed
    · simp
  · show pd = true ↔ _
    rw [hpd]
    simp only [Bool.and_eq_true, decide_eq_true_eq, and_assoc]
    constructor
    · rintro ⟨h1, h2, h3⟩
      exact ⟨h1, h2, by linarith [hv.2]⟩
    · rintro ⟨h1, h2, h3⟩
      exact ⟨h1, h2, by linarith⟩

/-- Witness for C3 at a concrete outcome list and score list. -/
theorem variance_bounded_witness :
    (0 ≤ calculate_variance [true, false] ∧ calculate_variance [true, false] ≤ 1/4) ∧
    (([(⟨"q", true, 1, 1⟩ : EvalResult)] ≠ []) ∧
      ∃ v, quality_assurance_gate [(⟨"q", true, 1, 1⟩ : EvalResult)] = .ok v ∧
        v.variance ≤ 35/100 ∧
        v.reason ≠ .tooInconsistent ∧
        (v.passed = true ↔
          6/10 ≤ v.average ∧ 15/100 ≤ v.variance ∧ v.variance ≤ 25/100)) :=
  ⟨variance_bounded_upper_check_unreachable.1 [true, false],
   by decide,
   variance_bounded_upper_check_unreachable.2 [(⟨"q", true, 1, 1⟩ : EvalResult)] (by decide)⟩

/-- Counterexample for C4: on the empty list the gate fails with the Python
`ZeroDivisionError` from `sum(...) / len(scores)`, not with the spec's
`InsufficientData`. -/
theorem gate_empty_not_insufficient_data :
    quality_assurance_gate [] = .error .zeroDivisionError ∧
    quality_assurance_gate [] ≠ .error .insufficientData := by
  constructor
  · rfl
  · intro hc
    exact QaError.noConfusion (Except.error.inj hc)

/-- C4 (amended).  The gate fails exactly on the empty input, and the error
it fails with is always `ZeroDivisionError`; no input makes it fail with
`InsufficientData`. -/
theorem gate_empty_raises_zero_division (scores : List EvalResult) :
    ((∃ e, quality_assurance_gate scores = .error e) ↔ scores = []) ∧
    (scores = [] → quality_assurance_gate scores = .error .zeroDivisionError) ∧
    quality_assurance_gate scores ≠ .error .insufficientData := by
  refine ⟨⟨?_, ?_⟩, ?_, ?_⟩
  · rintro ⟨e, he⟩
    by_contra hne
    have hlen : scores.length ≠ 0 := by
      simpa [List.length_eq_zero] using hne
    rw [quality_assurance_gate] at he
    simp only [if_neg hlen] at he
    exact Except.noConfusion he
  · rintro rfl
    exact ⟨.zeroDivisionError, rfl⟩
  · rintro rfl
    rfl
  · intro hcontra
    by_cases he : scores = []
    · subst he
      exact QaError.noConfusion (Except.error.inj hcontra)
    · have hlen : scores.length ≠ 0 := by
        simpa [List.length_eq_zero] using he
      rw [quality_assurance_gate] at hcontra
      simp only [if_neg hlen] at hcontra
      exact Except.noConfusion hcontra

/-- Witness for C4 (amended) at the empty input. -/
theorem gate_empty_raises_zero_division_witness :
    ((∃ e, quality_assurance_gate [] = .error e) ↔ ([] : List EvalResult) = []) ∧
    (([] : List EvalResult) = [] →
      quality_assurance_gate [] = .error .zeroDivisionError) ∧
    quality_assurance_gate ([] : List EvalResult) ≠ .error .insufficientData :=
  gate_empty_raises_zero_division []

/-- Scenario A input: 5 evaluation results, all `correct = true, score = 1.0`. -/
def scenarioA : List EvalResult :=
  [⟨"q1", true, 1, 1⟩, ⟨"q2", true, 1, 1⟩, ⟨"q3", true, 1, 1⟩,
   ⟨"q4", true, 1, 1⟩, ⟨"q5", true, 1, 1⟩]

/-- C5.  On 5 all-correct, all-perfect-score results the gate computes
`pass_rate = 1`, `variance = 0`, `average = 1`, and returns
`passed = false`, classified in the `variance < 0.15` branch (here its
`variance == 0.0` sub-case), despite the average being above the
competence threshold. -/
theorem scenarioA_fails_gate :
    mean01 (scenarioA.map EvalResult.correct) = 1 ∧
    quality_assurance_gate scenarioA =
      .ok ⟨false, 1, 0, .allIdentical⟩ ∧
    (6/10 : ℚ) ≤ 1 ∧ (0 : ℚ) < 15/100 := by
  have hvar : calculate_variance (scenarioA.map EvalResult.correct) = 0 := by
    show calculate_variance [true, true, true, true, true] = 0
    rw [calculate_variance]
    norm_num
  have havg : (scenarioA.map EvalResult.score).sum / (scenarioA.length : ℚ) = 1 := by
    show ((1 : ℚ) + (1 + (1 + (1 + (1 + 0))))) / (5 : ℕ) = 1
    norm_num
  refine ⟨?_, ?_, by norm_num, by norm_num⟩
  · rw [mean01_eq_count_div]
    show ((5 : ℕ) : ℚ) / ((5 : ℕ) : ℚ) = 1
    norm_num
  · have h1 : decide ((6/10 : ℚ) ≤ 1) = true := decide_eq_true (by norm_num)
    have h2 : decide ((15/100 : ℚ) ≤ (0 : ℚ)) = false := decide_eq_false (by norm_num)
    have h3 : decide ((0 : ℚ) ≤ 35/100) = true := decide_eq_true (by norm_num)
    rw [quality_assurance_gate]
    rw [if_neg (by decide)]
    rw [havg, hvar]
    simp only [h1, h2, h3, Bool.true_and, Bool.and_true, Bool.false_and, Bool.and_false]
    rw [generate_qa_reason]
    rw [if_pos rfl]
    rw [if_neg (by norm_num : ¬ (1 : ℚ) < 6/10)]
    rw [if_pos (by norm_num : (0 : ℚ) < 15/100)]
    rfl

/-! ## Retry/Adjustment Controller (`core/retry.py`) -/

/-- The agent configuration dict built by `get_agent_setup_data`
(`core/agent_setup.py`, lines 12-22).  All keys are always present there, so
they are plain fields (the `metadata` dict carries no behaviour the claims
touch and is omitted). -/
structure AgentConfig where
  agent_id : String
  agent_type : String
  capabilities : List String
  constraints : List String
  success_criteria : String
  system_prompt : String
deriving DecidableEq

/-- Python `str.lower()` (ASCII behaviour suffices for the feedback texts). -/
def py_lower (s : String) : String := ⟨s.data.map Char.toLower⟩

/-- Whether `pat` occurs at the head of `s` (helper for the Python `in`
operator on strings). -/
def py_starts : List Char → List Char → Bool
  | [], _ => true
  | _ :: _, [] => false
  | a :: as, b :: bs => a == b && py_starts as bs

/-- Whether `pat` occurs anywhere in `s` (helper for Python `in`). -/
def py_in_chars (pat : List Char) : List Char → Bool
  | [] => py_starts pat []
  | b :: bs => py_starts pat (b :: bs) || py_in_chars pat bs

/-- Python `pat in s` for strings. -/
def py_in (pat s : String) : Bool := py_in_chars pat.toList s.toList

/-- `_determine_adjustment_strategy` (`core/retry.py`, lines 103-130). -/
def determine_adjustment_strategy (feedback : String) (retry_count : Nat) : String :=
  let feedback_lower := py_lower feedback
  if retry_count = 0 then
    if py_in "variance" feedback_lower || py_in "difficulty" feedback_lower then
      "adjust_prompt_for_difficulty"
    else if py_in "failed" feedback_lower && py_in "easy" feedback_lower then
      "strengthen_fundamentals"
    else
      "enhance_prompt_specificity"
  else if retry_count = 1 then
    if py_in "variance" feedback_lower then "adjust_capabilities"
    else "refine_constraints"
  else
    if py_in "too easy" feedback_lower || py_in "100%" feedback_lower then
      "increase_complexity"
    else
      "simplify_requirements"

/-- `_apply_adjustments` (`core/retry.py`, lines 133-209) as a value-level
function: `copy.deepcopy(agent_config)` is value copying here (the heap-level
model of the same function, used for the aliasing claim, is
`apply_adjustments_heap` below).  The unused `structured_instruction`
parameter of the source is dropped. -/
def apply_adjustments (agent_config : AgentConfig) (strategy : String)
    (_feedback : String) : AgentConfig :=
  let adjusted_config := agent_config
  if strategy = "adjust_prompt_for_difficulty" then
    { adjusted_config with system_prompt := adjusted_config.system_prompt ++
        "\n\nIMPORTANT: Pay special attention to edge cases and complex scenarios. Provide detailed reasoning for challenging questions." }
  else if strategy = "strengthen_fundamentals" then
    { adjusted_config with system_prompt := adjusted_config.system_prompt ++
        "\n\nFocus on demonstrating strong understanding of fundamental concepts. Ensure accuracy in basic operations before tackling complex problems." }
  else if strategy = "enhance_prompt_specificity" then
    let caps_str := String.intercalate ", " adjusted_config.capabilities
    { adjusted_config with system_prompt := adjusted_config.system_prompt ++
        "\n\nYour core expertise areas are: " ++ caps_str ++
        ". Demonstrate deep knowledge in these specific areas." }
  else if strategy = "adjust_capabilities" then
    if adjusted_config.capabilities.contains "continuous_learning" then
      adjusted_config
    else
      { adjusted_config with
          capabilities := adjusted_config.capabilities ++ ["continuous_learning"],
          system_prompt := adjusted_config.system_prompt ++
            "\n\nYou have the ability to learn from feedback and improve your responses." }
  else if strategy = "refine_constraints" then
    { adjusted_config with
        constraints := adjusted_config.constraints ++ ["prioritize_accuracy_over_speed"],
        system_prompt := adjusted_config.system_prompt ++
          "\n\nPrioritize accuracy and thoroughness in your responses." }
  else if strategy = "increase_complexity" then
    { adjusted_config with system_prompt := adjusted_config.system_prompt ++
        "\n\nDemonstrate advanced reasoning and consider multiple perspectives. Go beyond surface-level answers." }
  else if strategy = "simplify_requirements" then
    { adjusted_config with system_prompt :=
        ("You are a " ++ adjusted_config.agent_type ++
        ". Your primary capabilities are: " ++
        String.intercalate ", " (adjusted_config.capabilities.take 3) ++
        ". Provide clear, accurate, and concise responses.") }
  else
    adjusted_config

/-- The part of a `quality_assurance_test` result dict that `genesis_retry`
branches on (`passed`) and forwards (`feedback`). -/
structure QAOutcome where
  passed : Bool
  feedback : String
deriving DecidableEq

/-- The two shapes of dict `genesis_retry` returns (`core/retry.py`,
lines 43-49 and 78-86). -/
inductive GenesisResult where
  | succeeded (agent_id agent_type : String) (capabilities : List String)
      (a2a_endpoint : String) (retry_count : Nat)
  | exhausted (message feedback suggestion : String) (retry_count : Nat)
deriving DecidableEq

/-- The `success` key of the returned dict. -/
def GenesisResult.success : GenesisResult → Bool
  | .succeeded .. => true
  | .exhausted .. => false

/-- The `retry_count` key of the returned dict. -/
def GenesisResult.retryCount : GenesisResult → Nat
  | .succeeded _ _ _ _ n => n
  | .exhausted _ _ _ n => n

/-- The `feedback` key of an exhausted result (`none` on success, whose dict
has no such key). -/
def GenesisResult.feedbackOf : GenesisResult → Option String
  | .succeeded .. => none
  | .exhausted _ fb _ _ => some fb

/-- The `suggestion` string of the exhaustion dict (`core/retry.py`,
line 47). -/
def retrySuggestion : String :=
  "Review agent configuration and requirements. Consider simplifying the task or providing more specific instructions."

/-- `genesis_retry` (`core/retry.py`, lines 8-100).  The QA pipeline run on
each attempt (challenge generation, simulation, evaluation, gate) involves
the Gateway, so it is abstracted as an oracle `qa` mapping the attempt index
and the adjusted configuration to the outcome of `quality_assurance_test`;
`registrar` abstracts `create_agent_a2a` (the Registrar — its module
`core/agent_generator.py` is not part of the sources), returning the
endpoint. -/
def genesis_retry (qa : Nat → AgentConfig → QAOutcome)
    (registrar : AgentConfig → String) (feedback : String)
    (agent_config : AgentConfig) (retry_count max_retries : Nat) : GenesisResult :=
  if h : max_retries ≤ retry_count then
    .exhausted
      ("QA failed after " ++ toString max_retries ++ " retry attempts - human intervention required")
      feedback retrySuggestion retry_count
  else
    let strategy := determine_adjustment_strategy feedback retry_count
    let adjusted_config := apply_adjustments agent_config strategy feedback
    let qa_result := qa retry_count adjusted_config
    if qa_result.passed then
      .succeeded adjusted_config.agent_id adjusted_config.agent_type
        adjusted_config.capabilities (registrar adjusted_config) (retry_count + 1)
    else
      genesis_retry qa registrar qa_result.feedback adjusted_config
        (retry_count + 1) max_retries
termination_by max_retries - retry_count
decreasing_by omega

theorem genesis_retry_retryCount_le (qa : Nat → AgentConfig → QAOutcome)
    (registrar : AgentConfig → String) :
    ∀ fuel retry_count max_retries feedback agent_config,
      max_retries - retry_count ≤ fuel → retry_count ≤ max_retries →
      (genesis_retry qa registrar feedback agent_config retry_count max_retries).retryCount
        ≤ max_retries := by
  intro fuel
  induction fuel with
  | zero =>
    intro rc mr fb cfg hfuel hrc
    rw [genesis_retry]
    rw [dif_pos (by omega)]
    exact hrc
  | succ n ih =>
    intro rc mr fb cfg hfuel hrc
    rw [genesis_retry]
    by_cases hge : mr ≤ rc
    · rw [dif_pos hge]
      exact hrc
    · rw [dif_neg hge]
      simp only
      split
      · simp only [GenesisResult.retryCount]
        omega
      · exact ih (rc + 1) mr _ _ (by omega) (by omega)

/-- C2.  Started at `retry_count = 0` with `max_retries = 3`, the returned
`retry_count` never exceeds 3; and if the QA gate fails on every attempt,
the controller terminates (it is a total function) with the structured
failure dict: `success = false`, `retry_count = 3`, the fixed
human-actionable suggestion, and the feedback string produced by the last
(third) QA run. -/
theorem retry_bounded_and_exhausts_structured (qa : Nat → AgentConfig → QAOutcome)
    (registrar : AgentConfig → String) (feedback : String) (agent_config : AgentConfig) :
    (genesis_retry qa registrar feedback agent_config 0 3).retryCount ≤ 3 ∧
    ((∀ n c, (qa n c).passed = false) →
      genesis_retry qa registrar feedback agent_config 0 3 =
        GenesisResult.exhausted
          "QA failed after 3 retry attempts - human intervention required"
          (qa 2 (apply_adjustments
            (apply_adjustments
              (apply_adjustments agent_config
                (determine_adjustment_strategy feedback 0) feedback)
              (determine_adjustment_strategy
                (qa 0 (apply_adjustments agent_config
                  (determine_adjustment_strategy feedback 0) feedback)).feedback 1)
              (qa 0 (apply_adjustments agent_config
                (determine_adjustment_strategy feedback 0) feedback)).feedback)
            (determine_adjustment_strategy
              (qa 1 (apply_adjustments
                (apply_adjustments agent_config
                  (determine_adjustment_strategy feedback 0) feedback)
                (determine_adjustment_strategy
                  (qa 0 (apply_adjustments agent_config
                    (determine_adjustment_strategy feedback 0) feedback)).feedback 1)
                (qa 0 (apply_adjustments agent_config
                  (determine_adjustment_strategy feedback 0) feedback)).feedback)).feedback 2)
            (qa 1 (apply_adjustments
              (apply_adjustments agent_config
                (determine_adjustment_strategy feedback 0) feedback)
              (determine_adjustment_strategy
                (qa 0 (apply_adjustments agent_config
                  (determine_adjustment_strategy feedback 0) feedback)).feedback 1)
              (qa 0 (apply_adjustments agent_config
                (determine_adjustment_strategy feedback 0) feedback)).feedback)).feedback)).feedback
          retrySuggestion 3) := by
  constructor
  · exact genesis_retry_retryCount_le qa registrar 3 0 3 feedback agent_config
      (by omega) (by omega)
  · intro hfail
    rw [genesis_retry, dif_neg (by omega)]
    simp only [hfail, Bool.false_eq_true, if_false]
    rw [genesis_retry, dif_neg (by omega)]
    simp only [hfail, Bool.false_eq_true, if_false]
    rw [genesis_retry, dif_neg (by omega)]
    simp only [hfail, Bool.false_eq_true, if_false]
    rw [genesis_retry, dif_pos (by omega)]
    rfl

/-- A concrete configuration used by witnesses. -/
def sampleConfig : AgentConfig :=
  ⟨"id-1", "data_analyst", ["sql", "python", "statistics", "viz"],
   ["budget"], "accurate summaries", "You are a data_analyst."⟩

/-- Witness for C2: a QA oracle that always fails, at `sampleConfig`. -/
theorem retry_bounded_and_exhausts_structured_witness :
    (genesis_retry (fun _ _ => ⟨false, "flat feedback"⟩) (fun _ => "ep") "fb"
      sampleConfig 0 3).retryCount ≤ 3 ∧
    genesis_retry (fun _ _ => ⟨false, "flat feedback"⟩) (fun _ => "ep") "fb"
      sampleConfig 0 3 =
      GenesisResult.exhausted
        "QA failed after 3 retry attempts - human intervention required"
        "flat feedback" retrySuggestion 3 :=
  ⟨(retry_bounded_and_exhausts_structured
      (fun _ _ => ⟨false, "flat feedback"⟩) (fun _ => "ep") "fb" sampleConfig).1,
   (retry_bounded_and_exhausts_structured
      (fun _ _ => ⟨false, "flat feedback"⟩) (fun _ => "ep") "fb" sampleConfig).2
      (fun _ _ => rfl)⟩

/-- C6.  Applying the `simplify_requirements` strategy replaces the
behavioral prompt outright: the result is the fixed template around the
configuration's `agent_type` and the first (at most 3) capabilities, the old
prompt does not occur in the computation (any configuration agreeing on
`agent_type` and `capabilities` yields the same new prompt), and at most 3
capabilities are mentioned. -/
theorem simplify_requirements_replaces_prompt (cfg other : AgentConfig)
    (feedback feedback2 : String)
    (htype : other.agent_type = cfg.agent_type)
    (hcaps : other.capabilities = cfg.capabilities) :
    (apply_adjustments cfg "simplify_requirements" feedback).system_prompt =
      "You are a " ++ cfg.agent_type ++ ". Your primary capabilities are: " ++
      String.intercalate ", " (cfg.capabilities.take 3) ++
      ". Provide clear, accurate, and concise responses." ∧
    (apply_adjustments other "simplify_requirements" feedback2).system_prompt =
      (apply_adjustments cfg "simplify_requirements" feedback).system_prompt ∧
    (cfg.capabilities.take 3).length ≤ 3 := by
  refine ⟨rfl, ?_, ?_⟩
  · show "You are a " ++ other.agent_type ++ _ ++ _ ++ _ = _
    rw [htype, hcaps]
    rfl
  · have := List.length_take_le 3 cfg.capabilities
    omega

/-- Witness for C6 at two concrete configurations differing only in their
prior prompt. -/
theorem simplify_requirements_replaces_prompt_witness :
    ({ sampleConfig with system_prompt := "totally different prior prompt" } :
        AgentConfig).agent_type = sampleConfig.agent_type ∧
    ({ sampleConfig with system_prompt := "totally different prior prompt" } :
        AgentConfig).capabilities = sampleConfig.capabilities ∧
    ((apply_adjustments sampleConfig "simplify_requirements" "fb").system_prompt =
      "You are a " ++ sampleConfig.agent_type ++ ". Your primary capabilities are: " ++
      String.intercalate ", " (sampleConfig.capabilities.take 3) ++
      ". Provide clear, accurate, and concise responses." ∧
    (apply_adjustments
        { sampleConfig with system_prompt := "totally different prior prompt" }
        "simplify_requirements" "other fb").system_prompt =
      (apply_adjustments sampleConfig "simplify_requirements" "fb").system_prompt ∧
    (sampleConfig.capabilities.take 3).length ≤ 3) :=
  ⟨rfl, rfl,
   simplify_requirements_replaces_prompt sampleConfig
     { sampleConfig with system_prompt := "totally different prior prompt" }
     "fb" "other fb" rfl rfl⟩

/-! ## Heap-level model of `_apply_adjustments` for the aliasing claim

Python dicts hold references to mutable list objects; `copy.deepcopy`
(`core/retry.py`, line 143) allocates fresh lists, and the `.append(...)`
calls of the adjustment branches mutate the lists of the copy in place.  To
state that the original configuration's lists are not mutated, the store of
list objects is explicit: a configuration holds references (`Nat`) into the
store, and `_apply_adjustments` is a function on store-configuration
pairs. -/

/-- A store of Python list-of-string objects, addressed by allocation
order. -/
structure Store where
  next : Nat
  mem : Nat → List String

/-- Dereference a list object. -/
def Store.read (st : Store) (r : Nat) : List String := st.mem r

/-- In-place update of a list object (Python `list.append` is
`write r (read r ++ [x])`). -/
def Store.write (st : Store) (r : Nat) (v : List String) : Store :=
  { st with mem := fun r2 => if r2 = r then v else st.mem r2 }

/-- Allocate a fresh list object. -/
def Store.alloc (st : Store) (v : List String) : Store × Nat :=
  ({ next := st.next + 1, mem := fun r2 => if r2 = st.next then v else st.mem r2 },
   st.next)

/-- An agent configuration whose `capabilities` and `constraints` entries are
references to list objects in the store.  String entries are immutable in
Python (`+=` rebinds the dict entry of the copy), so they stay plain
fields. -/
structure HConfig where
  agent_id : String
  agent_type : String
  capabilities : Nat
  constraints : Nat
  success_criteria : String
  system_prompt : String

/-- `copy.deepcopy(agent_config)` (`core/retry.py`, line 143): fresh list
objects with the same contents. -/
def deepcopy (st : Store) (cfg : HConfig) : Store × HConfig :=
  let a1 := st.alloc (st.read cfg.capabilities)
  let a2 := a1.1.alloc (st.read cfg.constraints)
  (a2.1, { cfg with capabilities := a1.2, constraints := a2.2 })

/-- `_apply_adjustments` (`core/retry.py`, lines 133-209) at the heap level.
Mirrors `apply_adjustments` above; list growth (`.append`) is an in-place
write to the copied object.  (`get_agent_setup_data` always creates both the
`capabilities` and `constraints` keys, so the source's `if "capabilities" in`
/ `if "constraints" not in` guards are always true resp. false.) -/
def apply_adjustments_heap (st : Store) (agent_config : HConfig)
    (strategy : String) (_feedback : String) : Store × HConfig :=
  let d := deepcopy st agent_config
  let st1 := d.1
  let adjusted_config := d.2
  if strategy = "adjust_prompt_for_difficulty" then
    (st1, { adjusted_config with system_prompt := adjusted_config.system_prompt ++
        "\n\nIMPORTANT: Pay special attention to edge cases and complex scenarios. Provide detailed reasoning for challenging questions." })
  else if strategy = "strengthen_fundamentals" then
    (st1, { adjusted_config with system_prompt := adjusted_config.system_prompt ++
        "\n\nFocus on demonstrating strong understanding of fundamental concepts. Ensure accuracy in basic operations before tackling complex problems." })
  else if strategy = "enhance_prompt_specificity" then
    let caps_str := String.intercalate ", " (st1.read adjusted_config.capabilities)
    (st1, { adjusted_config with system_prompt := adjusted_config.system_prompt ++
        "\n\nYour core expertise areas are: " ++ caps_str ++
        ". Demonstrate deep knowledge in these specific areas." })
  else if strategy = "adjust_capabilities" then
    if (st1.read adjusted_config.capabilities).contains "continuous_learning" then
      (st1, adjusted_config)
    else
      (st1.write adjusted_config.capabilities
        (st1.read adjusted_config.capabilities ++ ["continuous_learning"]),
       { adjusted_config with system_prompt := adjusted_config.system_prompt ++
          "\n\nYou have the ability to learn from feedback and improve your responses." })
  else if strategy = "refine_constraints" then
    (st1.write adjusted_config.constraints
      (st1.read adjusted_config.constraints ++ ["prioritize_accuracy_over_speed"]),
     { adjusted_config with system_prompt := adjusted_config.system_prompt ++
        "\n\nPrioritize accuracy and thoroughness in your responses." })
  else if strategy = "increase_complexity" then
    (st1, { adjusted_config with system_prompt := adjusted_config.system_prompt ++
        "\n\nDemonstrate advanced reasoning and consider multiple perspectives. Go beyond surface-level answers." })
  else if strategy = "simplify_requirements" then
    (st1, { adjusted_config with system_prompt :=
        ("You are a " ++ adjusted_config.agent_type ++
        ". Your primary capabilities are: " ++
        String.intercalate ", " ((st1.read adjusted_config.capabilities).take 3) ++
        ". Provide clear, accurate, and concise responses.") })
  else
    (st1, adjusted_config)

theorem deepcopy_preserves (st : Store) (cfg : HConfig) (r : Nat) (h : r < st.next) :
    (deepcopy st cfg).1.read r = st.read r := by
  unfold deepcopy Store.alloc Store.read
  simp only
  rw [if_neg (by omega), if_neg (by omega)]

theorem deepcopy_fresh (st : Store) (cfg : HConfig) :
    st.next ≤ (deepcopy st cfg).2.capabilities ∧
    st.next ≤ (deepcopy st cfg).2.constraints ∧
    (deepcopy st cfg).2.capabilities < (deepcopy st cfg).1.next ∧
    (deepcopy st cfg).2.constraints < (deepcopy st cfg).1.next := by
  unfold deepcopy Store.alloc
  simp only
  omega

/-- C7.  `_apply_adjustments` never mutates a pre-existing list object: for
every strategy, every list object allocated before the call (in particular
the original configuration's `capabilities` and `constraints` lists) reads
the same after the call, and the returned copy's list references are fresh
(allocated by the call, hence shared with nothing that existed before).  The
original configuration record itself is untouched: the function only builds
a new record.  Hence the appends performed on the adjusted copy cannot
retroactively affect the original. -/
theorem apply_adjustments_no_mutation (st : Store) (cfg : HConfig)
    (strategy feedback : String) (r : Nat) (h : r < st.next) :
    (apply_adjustments_heap st cfg strategy feedback).1.read r = st.read r ∧
    st.next ≤ (apply_adjustments_heap st cfg strategy feedback).2.capabilities ∧
    st.next ≤ (apply_adjustments_heap st cfg strategy feedback).2.constraints := by
  have hpre := deepcopy_preserves st cfg r h
  have hfresh := deepcopy_fresh st cfg
  unfold apply_adjustments_heap
  simp only
  split
  · exact ⟨hpre, hfresh.1, hfresh.2.1⟩
  · split
    · exact ⟨hpre, hfresh.1, hfresh.2.1⟩
    · split
      · exact ⟨hpre, hfresh.1, hfresh.2.1⟩
      · split
        · split
          · exact ⟨hpre, hfresh.1, hfresh.2.1⟩
          · refine ⟨?_, hfresh.1, hfresh.2.1⟩
            show Store.read (Store.write _ _ _) r = _
            unfold Store.read Store.write
            simp only
            rw [if_neg (by omega)]
            exact hpre
        · split
          · refine ⟨?_, hfresh.1, hfresh.2.1⟩
            show Store.read (Store.write _ _ _) r = _
            unfold Store.read Store.write
            simp only
            rw [if_neg (by omega)]
            exact hpre
          · split
            · exact ⟨hpre, hfresh.1, hfresh.2.1⟩
            · split
              · exact ⟨hpre, hfresh.1, hfresh.2.1⟩
              · exact ⟨hpre, hfresh.1, hfresh.2.1⟩

/-- A concrete two-object store for the C7 witness: object 0 is the original
capability list, object 1 the original constraint list. -/
def sampleStore : Store :=
  ⟨2, fun r => if r = 0 then ["sql", "python"] else if r = 1 then ["budget"] else []⟩

/-- The original configuration pointing at the two pre-existing objects. -/
def sampleHConfig : HConfig :=
  ⟨"id-1", "data_analyst", 0, 1, "accurate summaries", "You are a data_analyst."⟩

/-- Witness for C7: the `refine_constraints` strategy appends to the copy's
constraint list, and the original's list objects read unchanged. -/
theorem apply_adjustments_no_mutation_witness :
    (1 < sampleStore.next) ∧
    ((apply_adjustments_heap sampleStore sampleHConfig "refine_constraints" "fb").1.read 1 =
        sampleStore.read 1 ∧
      sampleStore.next ≤
        (apply_adjustments_heap sampleStore sampleHConfig "refine_constraints" "fb").2.capabilities ∧
      sampleStore.next ≤
        (apply_adjustments_heap sampleStore sampleHConfig "refine_constraints" "fb").2.constraints) :=
  ⟨by decide,
   apply_adjustments_no_mutation sampleStore sampleHConfig "refine_constraints" "fb" 1
     (by decide)⟩

/-! ## Top-level input validation (`core/genesis.py`, lines 14-28) -/

/-- A Python string at character granularity. -/
abbrev PyStr := List Char

/-- Python `str.strip()`: drop whitespace from both ends. -/
def py_strip (s : PyStr) : PyStr :=
  ((s.dropWhile Char.isWhitespace).reverse.dropWhile Char.isWhitespace).reverse

/-- The three `ValidationError` raises of `genesis` (`core/genesis.py`,
lines 19-26), in source order. -/
inductive ValidationError where
  /-- `if not instruction`: "Instruction cannot be null or empty". -/
  | nullOrEmpty
  /-- `if len(instruction.strip()) < 10`: "Instruction too short". -/
  | tooShort
  /-- `if len(instruction) > 5000`: "Instruction too long". -/
  | tooLong
deriving DecidableEq

/-- The validation prologue of `genesis` (`core/genesis.py`, lines 19-26):
the first failing check raises.  Note the asymmetry of the source: the
10-character minimum is checked on `instruction.strip()`, the 5000-character
maximum on the raw `instruction`. -/
def validate_instruction (instruction : PyStr) : Option ValidationError :=
  if instruction = [] then some .nullOrEmpty
  else if (py_strip instruction).length < 10 then some .tooShort
  else if 5000 < instruction.length then some .tooLong
  else none

/-- `genesis` up to the branch structure the claim is about: validation
happens first; everything after it (`convert_query_via_mdp` onward) performs
Gateway calls and is abstracted as `pipeline`.  A `ValidationError` is
raised before `pipeline` is consulted. -/
def genesis_entry {R : Type} (pipeline : PyStr → R) (instruction : PyStr) :
    Except ValidationError R :=
  match validate_instruction instruction with
  | some e => .error e
  | none => .ok (pipeline instruction)

/-- The acceptance bounds exactly as the claim states them (spec wording:
"1-5000 characters after trimming whitespace, minimum 10 non-whitespace
characters"); kept separate from the source-derived `validate_instruction`
so the two can be compared. -/
def specStatedBounds (instruction : PyStr) : Prop :=
  1 ≤ (py_strip instruction).length ∧ (py_strip instruction).length ≤ 5000 ∧
  10 ≤ (instruction.filter (fun c => !c.isWhitespace)).length

/-- An instruction inside the claim's stated bounds (4995 non-whitespace
characters, 4995 ≤ 5000 after trimming) that the code nevertheless
rejects: its raw length 5005 exceeds the untrimmed 5000-character check. -/
def overlongPadded : PyStr := List.replicate 4995 'a' ++ List.replicate 10 ' '

theorem py_strip_overlongPadded : py_strip overlongPadded = List.replicate 4995 'a' := by
  have hdrop : ∀ n (l : List Char), (List.replicate n ' ' ++ l).dropWhile Char.isWhitespace
      = l.dropWhile Char.isWhitespace := by
    intro n
    induction n with
    | zero => intro l; simp
    | succ k ih =>
      intro l
      rw [List.replicate_succ, List.cons_append, List.dropWhile_cons]
      simp only [ih]
      rw [if_pos (by decide)]
  have hkeep : (List.replicate 4995 'a').dropWhile Char.isWhitespace
      = List.replicate 4995 'a' := by
    rw [show (4995 : Nat) = 4994 + 1 by rfl, List.replicate_succ, List.dropWhile_cons]
    rw [if_neg (by decide)]
  rw [py_strip]
  rw [show overlongPadded.dropWhile Char.isWhitespace = overlongPadded by
    rw [overlongPadded, show (4995 : Nat) = 4994 + 1 by rfl, List.replicate_succ,
      List.cons_append, List.dropWhile_cons, if_neg (by decide)]]
  rw [overlongPadded, List.reverse_append, List.reverse_replicate,
    List.reverse_replicate, hdrop, hkeep, List.reverse_replicate]

/-- Counterexample for C8: `overlongPadded` satisfies the claim's stated
bounds, yet validation raises `ValidationError` (too long) because the
5000-character maximum is applied to the untrimmed string. -/
theorem validation_rejects_inside_stated_bounds :
    specStatedBounds overlongPadded ∧
    validate_instruction overlongPadded = some .tooLong := by
  have hstrip := py_strip_overlongPadded
  have hfilter : overlongPadded.filter (fun c => !c.isWhitespace)
      = List.replicate 4995 'a' := by
    rw [overlongPadded, List.filter_append]
    rw [List.filter_replicate, List.filter_replicate]
    rw [if_pos (by decide), if_neg (by decide)]
    rw [List.append_nil]
  have hlen : overlongPadded.length = 5005 := by
    rw [overlongPadded, List.length_append, List.length_replicate, List.length_replicate]
  have hne : overlongPadded ≠ [] := by
    intro he
    have hc := congrArg List.length he
    rw [hlen] at hc
    exact absurd hc (by decide)
  refine ⟨⟨?_, ?_, ?_⟩, ?_⟩
  · rw [hstrip, List.length_replicate]; omega
  · rw [hstrip, List.length_replicate]; omega
  · rw [hfilter, List.length_replicate]; omega
  · rw [validate_instruction]
    rw [if_neg hne]
    rw [if_neg (by rw [hstrip, List.length_replicate]; omega)]
    rw [if_pos (by rw [hlen]; omega)]

/-- C8 (amended).  Validation raises before any Gateway call — the result on
an invalid instruction is `.error` for every `pipeline` — with
`nullOrEmpty` on the empty instruction, `tooShort` on a non-empty
instruction of at most 9 characters after trimming, and `tooLong` when the
raw length exceeds 5000 although the trimmed length is acceptable; and an
instruction passes validation and reaches the Gateway pipeline exactly when
it is non-empty, its trimmed length is at least 10, and its raw (untrimmed)
length is at most 5000. -/
theorem genesis_validation_amended {R : Type} (pipeline : PyStr → R)
    (instruction : PyStr) :
    (instruction = [] → genesis_entry pipeline instruction = .error .nullOrEmpty) ∧
    (instruction ≠ [] → (py_strip instruction).length ≤ 9 →
      genesis_entry pipeline instruction = .error .tooShort) ∧
    (10 ≤ (py_strip instruction).length → 5000 < instruction.length →
      genesis_entry pipeline instruction = .error .tooLong) ∧
    (genesis_entry pipeline instruction = .ok (pipeline instruction) ↔
      instruction ≠ [] ∧ 10 ≤ (py_strip instruction).length ∧
      instruction.length ≤ 5000) := by
  refine ⟨?_, ?_, ?_, ?_⟩
  · rintro rfl
    rfl
  · intro hne hshort
    rw [genesis_entry, validate_instruction, if_neg hne, if_pos (by omega)]
  · intro hlong hlen
    have hne : instruction ≠ [] := by
      intro he
      rw [he] at hlen
      simp at hlen
    rw [genesis_entry, validate_instruction, if_neg hne, if_neg (by omega),
      if_pos (by omega)]
  · constructor
    · intro hok
      by_cases h1 : instruction = []
      · rw [genesis_entry, validate_instruction, if_pos h1] at hok
        exact Except.noConfusion hok
      · by_cases h2 : (py_strip instruction).length < 10
        · rw [genesis_entry, validate_instruction, if_neg h1, if_pos h2] at hok
          exact Except.noConfusion hok
        · by_cases h3 : 5000 < instruction.length
          · rw [genesis_entry, validate_instruction, if_neg h1, if_neg h2,
              if_pos h3] at hok
            exact Except.noConfusion hok
          · exact ⟨h1, by omega, by omega⟩
    · rintro ⟨h1, h2, h3⟩
      rw [genesis_entry, validate_instruction, if_neg h1, if_neg (by omega),
        if_neg (by omega)]

/-- Witness for C8 (amended), exercising the `.ok` direction on a 12-character
instruction and the `tooShort` raise on a 9-character one. -/
theorem genesis_validation_amended_witness :
    (List.replicate 12 'a' ≠ ([] : PyStr) ∧
      10 ≤ (py_strip (List.replicate 12 'a')).length ∧
      (List.replicate 12 'a').length ≤ 5000 ∧
      genesis_entry (fun _ => (0 : Nat)) (List.replicate 12 'a') = .ok 0) ∧
    (List.replicate 9 'a' ≠ ([] : PyStr) ∧
      (py_strip (List.replicate 9 'a')).length ≤ 9 ∧
      genesis_entry (fun _ => (0 : Nat)) (List.replicate 9 'a') = .error .tooShort) :=
  ⟨⟨by decide, by decide, by decide,
    (genesis_validation_amended (fun _ => (0 : Nat)) (List.replicate 12 'a')).2.2.2.mpr
      ⟨by decide, by decide, by decide⟩⟩,
   ⟨by decide, by decide,
    (genesis_validation_amended (fun _ => (0 : Nat)) (List.replicate 9 'a')).2.1
      (by decide) (by decide)⟩⟩

/-! ## Gateway-fault handling inside the QA pipeline (`qa/qa_vet.py`) -/

/-- A Gateway failure, carried as the Python exception's message (`str(e)`). -/
abbrev GatewayError := String

/-- A challenge question dict (`qa/qa_vet.py`, lines 139-144). -/
structure Question where
  q : String
  answer : String
  difficulty : ℚ
  source : String
deriving DecidableEq

/-- The hardcoded fallback of the `except` branch of
`generate_challenge_questions` (`qa/qa_vet.py`, lines 174-196), truncated to
`num_questions`. -/
def fallback_questions (agent_type : String) (capabilities : List String)
    (num_questions : Nat) : List Question :=
  ([⟨"Basic task: Explain the fundamentals of " ++ agent_type,
     "Clear explanation of core concepts", 3/10, "Fallback"⟩,
    ⟨"Intermediate: Apply " ++ capabilities.headD "your skills" ++ " to solve a problem",
     "Practical application with reasoning", 6/10, "Fallback"⟩,
    ⟨"Advanced: Optimize and debug complex " ++ agent_type ++ " scenarios",
     "Deep technical solution with edge cases", 8/10, "Fallback"⟩] : List Question).take
    num_questions

/-- The `while len(valid_questions) < num_questions` padding loop of
`generate_challenge_questions` (`qa/qa_vet.py`, lines 154-161). -/
def pad_questions (agent_type : String) (num_questions : Nat)
    (valid_questions : List Question) : List Question :=
  if h : valid_questions.length < num_questions then
    let difficulty : ℚ :=
      if valid_questions.length = 0 then 3/10
      else if valid_questions.length = 1 then 6/10 else 8/10
    let level := ["basic", "intermediate", "advanced"].getD (valid_questions.length % 3) ""
    pad_questions agent_type num_questions (valid_questions ++
      [⟨"Explain a " ++ level ++ " concept related to " ++ agent_type,
        "Detailed technical explanation", difficulty, "Fallback"⟩])
  else valid_questions
termination_by num_questions - valid_questions.length
decreasing_by simp only [List.length_append, List.length_cons, List.length_nil]; omega

/-- `generate_challenge_questions` (`qa/qa_vet.py`, lines 79-196).  The
Gateway round trip and JSON validation of the `try:` body are abstracted as
`gw`, carrying the validated question list or the raised exception.  The
result type is `Except GatewayError _` so that "the error is surfaced" is
statable; the source's `except Exception` branch returns the hardcoded
fallback list instead of re-raising. -/
def generate_challenge_questions (gw : Except GatewayError (List Question))
    (agent_type : String) (capabilities : List String) (num_questions : Nat) :
    Except GatewayError (List Question) :=
  match gw with
  | .ok valid_questions =>
    .ok ((pad_questions agent_type num_questions valid_questions).take num_questions)
  | .error _ => .ok (fallback_questions agent_type capabilities num_questions)

/-- `simulate_agent_response` (`qa/qa_vet.py`, lines 198-234): on a Gateway
failure the `except` branch returns the string
`f"Error generating response: {e}"` as if it were the agent's answer. -/
def simulate_agent_response (gw : Except GatewayError String) :
    Except GatewayError String :=
  match gw with
  | .ok text => .ok text
  | .error e => .ok ("Error generating response: " ++ e)

/-- One `scores` entry built by `evaluate_responses` (`qa/qa_vet.py`,
lines 282-287). -/
def score_entry (question : Question) (correct : Bool) (score : ℚ) : EvalResult :=
  ⟨question.q, correct, score, question.difficulty⟩

/-- The per-question body of `evaluate_responses` (`qa/qa_vet.py`,
lines 246-287): on a Gateway failure the `except` branch falls back to
substring matching (`question["answer"].lower() in response.lower()`) and
scores 1.0/0.0, producing a normal score entry. -/
def evaluate_response (gw : Except GatewayError (Bool × ℚ)) (response : String)
    (question : Question) : Except GatewayError EvalResult :=
  match gw with
  | .ok (correct, score) => .ok (score_entry question correct score)
  | .error _ =>
    let correct := py_in (py_lower question.answer) (py_lower response)
    .ok (score_entry question correct (if correct then 1 else 0))

/-- C9 claims Gateway errors abort the attempt as a distinct fault.  The code
does the opposite — each stage catches every exception and produces a normal
`.ok` payload: challenge generation returns the hardcoded fallback
questions, simulation returns the error text as the agent's answer, and
evaluation falls back to substring matching (here matching "42" inside the
response, a normal correct verdict); no stage ever returns `.error`. -/
theorem gateway_errors_swallowed_not_surfaced :
    generate_challenge_questions (.error "transport failure") "data_analyst" ["sql"] 5 =
      .ok (fallback_questions "data_analyst" ["sql"] 5) ∧
    simulate_agent_response (.error "transport failure") =
      .ok "Error generating response: transport failure" ∧
    evaluate_response (.error "transport failure") "the answer is 42"
      ⟨"what is 6*7?", "42", 1/2, "src"⟩ =
      .ok ⟨"what is 6*7?", true, 1, 1/2⟩ ∧
    (∀ gw agent_type capabilities num_questions,
      generate_challenge_questions gw agent_type capabilities num_questions ≠
        .error "transport failure") ∧
    (∀ gw, simulate_agent_response gw ≠ .error "transport failure") := by
  refine ⟨rfl, rfl, ?_, ?_, ?_⟩
  · show Except.ok (score_entry _ (py_in _ _) _) = _
    rfl
  · intro gw agent_type capabilities num_questions hcontra
    cases gw with
    | ok v => exact Except.noConfusion hcontra
    | error e => exact Except.noConfusion hcontra
  · intro gw hcontra
    cases gw with
    | ok v => exact Except.noConfusion hcontra
    | error e => exact Except.noConfusion hcontra

/-! ## Model selection (`core/llm_selector.py`) and its use in `genesis` -/

/-- The `ModelSelection` dataclass (`core/llm_selector.py`, lines 7-14). -/
structure ModelSelection where
  model_name : String
  context_window : Int
  temperature : ℚ
  reasoning : String
  estimated_cost_per_1k : ℚ
deriving DecidableEq

/-- `select_llm` (`core/llm_selector.py`, lines 17-83).  The `except` branch
(lines 81-83) only logs: the function body ends without a `return`, so
Python returns `None` — modelled as `Option` with `none`. -/
def select_llm (gw : Except GatewayError ModelSelection) : Option ModelSelection :=
  match gw with
  | .ok model_selection => some model_selection
  | .error _ => none

/-- The runtime error raised by attribute access on `None`. -/
inductive PyRuntimeError where
  | attributeErrorOnNone
deriving DecidableEq

/-- `genesis` lines 41-43: reading `llm_instance.model_name`,
`llm_instance.temperature`, `llm_instance.context_window`; on `None` this
raises `AttributeError` (which the `except` at line 79 re-raises). -/
def read_selection_fields (llm_instance : Option ModelSelection) :
    Except PyRuntimeError (String × ℚ × Int) :=
  match llm_instance with
  | none => .error .attributeErrorOnNone
  | some m => .ok (m.model_name, m.temperature, m.context_window)

/-- C10.  When the Gateway call inside `select_llm` raises, `select_llm`
returns `None` (no fallback, re-raise, or typed fault), and `genesis` then
fails with an `AttributeError` from dereferencing `None` — never with a
`ModelSelection` and never with a classified Gateway fault. -/
theorem select_llm_none_dereferenced :
    (∀ e : GatewayError, select_llm (.error e) = none) ∧
    (∀ e : GatewayError,
      read_selection_fields (select_llm (.error e)) = .error .attributeErrorOnNone) ∧
    (∀ sel, select_llm (.ok sel) = some sel) := by
  exact ⟨fun _ => rfl, fun _ => rfl, fun _ => rfl⟩

end AgentCreator
